import Mathlib

/-!
Verification development for a thin async SQLAlchemy facade.

The repository consists of three classes:
  * `DDLRepository`   (sqlalchemy_facade/src/ddl_repository.py)
  * `ReadRepository`  (sqlalchemy_facade/src/read_repository.py)
  * `WriteRepository` (sqlalchemy_facade_async/src/write_repository.py)

We embed each public operation as a pure function producing
  * a result (`Except Exn α`, mirroring Python exception flow),
  * the repository state after the call (the privately stored session),
  * a trace of observable events (session creation/closing, logging calls,
    and the ORM calls issued to the underlying library).

The underlying ORM/database is an oracle `Db : OrmOp → Except Exn DbResult`:
each issued ORM call either succeeds with a result or raises an exception,
chosen by the oracle.  This lets us quantify over database behaviours.
-/

/-- Python exception values, identified by kind (plus an index for
database-originated errors so distinct failures are distinguishable). -/
inductive Exn where
  | attributeError
  | indexError
  | typeError
  | valueError
  | dbError (n : Nat)
deriving DecidableEq, Repr

/-- Python values as they appear in entity dictionaries and filters.
`vFloat` carries an integer stand-in: no floating-point reasoning is needed,
only the dynamic type tag matters (for the non-timestamp filter). -/
inductive PyVal where
  | vInt (n : Int)
  | vStr (s : String)
  | vFloat (q : Int)
  | vBool (b : Bool)
  | vDatetime (t : Nat)
  | vNone
deriving DecidableEq, Repr, Inhabited

/-- `type(v) in [str, int, float, bool]` from
`WriteRepository.insert_ignore_get_id`. -/
def PyVal.isScalar : PyVal → Bool
  | PyVal.vInt _ => true
  | PyVal.vStr _ => true
  | PyVal.vFloat _ => true
  | PyVal.vBool _ => true
  | _ => false

/-- ORM calls the facade can issue to the underlying library.  Sequence
names are lists of characters so that Python's `str.split(".")` can be
modelled exactly.  `start`/`increment` of `createSequence` are `Option Int`
because SQLAlchemy's `Sequence(...)` leaves them unset (`None`) unless a
value is passed.  `updateWhere` is the ORM's update-statement call: the
ORM offers it, so the event vocabulary contains it, whether or not the
facade ever issues it. -/
inductive OrmOp where
  | createSchema (name : String)
  | createSequence (schema name : List Char) (start increment : Option Int)
  | createAllTables
  | dropAllTables
  | seedData (table : String) (data : List (List (String × PyVal)))
  | selectWhere (model : String) (filters : List (String × PyVal))
  | updateWhere (model : String) (filters setValues : List (String × PyVal))
  | deleteWhere (model : String) (filters : List (String × PyVal))
  | insertOnConflictDoUpdate (table : String) (values : List (String × PyVal))
      (indexElements : List String)
  | insertOnConflictDoNothing (table : String) (values : List (String × PyVal))
  | sessionAdd
  | sessionAddAll
  | sessionFlush
  | sessionCommit
  | sessionRollback
  | sessionBegin
  | rawStatement (s : String)
deriving DecidableEq, Repr

/-- What a successful ORM call hands back: fetched rows (tuples of values)
and `result.inserted_primary_key`. -/
structure DbResult where
  rows : List (List PyVal)
  insertedPrimaryKey : List PyVal
deriving DecidableEq, Repr

/-- The database/ORM oracle. -/
def Db : Type := OrmOp → Except Exn DbResult

/-- An empty successful result. -/
def emptyResult : DbResult := ⟨[], []⟩

/-- An oracle on which every ORM call succeeds with an empty result. -/
def dbOk : Db := fun _ => Except.ok emptyResult

/-- Observable events of one repository operation, in program order. -/
inductive Ev where
  | sessionCreated (id : Nat)
  | sessionClosed (id : Nat)
  | connBegin
  | logDebug
  | logError (e : Exn)
  | orm (op : OrmOp)
  | rowMutated (key : String) (value : PyVal)
deriving DecidableEq, Repr

def Ev.isSessionCreated : Ev → Bool
  | Ev.sessionCreated _ => true
  | _ => false

def Ev.isLogError : Ev → Bool
  | Ev.logError _ => true
  | _ => false

def Ev.isSelectCall : Ev → Bool
  | Ev.orm (OrmOp.selectWhere _ _) => true
  | _ => false

def Ev.isUpdateCall : Ev → Bool
  | Ev.orm (OrmOp.updateWhere _ _ _) => true
  | _ => false

def Ev.isInsertCall : Ev → Bool
  | Ev.orm (OrmOp.insertOnConflictDoUpdate _ _ _) => true
  | Ev.orm (OrmOp.insertOnConflictDoNothing _ _) => true
  | _ => false

def Ev.isRowMutated : Ev → Bool
  | Ev.rowMutated _ _ => true
  | _ => false

/-- Repository instance state: the privately stored session
(`self.__session`, `None` initially) and a counter supplying fresh session
identities. -/
structure RepoState where
  session : Option Nat
  nextId : Nat
deriving DecidableEq, Repr

/-- The state of a freshly constructed repository (`__init__` stores
`None`). -/
def initState : RepoState := ⟨none, 0⟩

/-- Outcome of one public operation. -/
structure OpResult (α : Type) where
  res : Except Exn α
  state : RepoState
  events : List Ev
deriving Repr

/-- `close` of both session-using repositories:
`if self.__session is not None: await self.__session.close();
self.__session = None`. -/
def closeSession (st : RepoState) : RepoState × List Ev :=
  match st.session with
  | some s => (⟨none, st.nextId⟩, [Ev.sessionClosed s, Ev.logDebug])
  | none => (st, [])

/-- `ReadRepository.session`: the async context manager always constructs a
new session from a fresh `sessionmaker`, stores it, and yields it; on an
exception from the body it logs the error, closes, and re-raises, and the
`finally` block closes again (a no-op the second time); on normal exit the
`finally` block closes.  `body` receives the session identity and returns
the body's outcome together with the events it produced. -/
def readWithSession {α : Type} (st : RepoState) (body : Nat → Except Exn α × List Ev) :
    OpResult α :=
  let sid := st.nextId
  let st1 : RepoState := ⟨some sid, st.nextId + 1⟩
  let pre : List Ev := [Ev.sessionCreated sid, Ev.logDebug]
  match body sid with
  | (Except.ok a, evs) =>
    let c := closeSession st1
    ⟨Except.ok a, c.1, pre ++ evs ++ c.2⟩
  | (Except.error e, evs) =>
    let c := closeSession st1
    let c2 := closeSession c.1
    ⟨Except.error e, c2.1, pre ++ evs ++ [Ev.logError e] ++ c.2 ++ c2.2⟩

/-- The session identity a `WriteRepository` operation runs on: the stored
session when there is one, otherwise the fresh one about to be created. -/
def writeSid (st : RepoState) : Nat := st.session.getD st.nextId

/-- `WriteRepository.session`: creates and stores a session only when none
is stored, otherwise yields the stored one; after a normal body exit it
flushes the session; on an exception (from the body or the flush) it
closes, logs the error, and re-raises.  There is no `finally`, so on
normal exit the session stays stored and open. -/
def writeWithSession {α : Type} (db : Db) (st : RepoState)
    (body : Nat → Except Exn α × List Ev) : OpResult α :=
  let sid := writeSid st
  let st1 : RepoState :=
    match st.session with
    | some _ => st
    | none => ⟨some st.nextId, st.nextId + 1⟩
  let pre : List Ev :=
    match st.session with
    | some _ => []
    | none => [Ev.sessionCreated st.nextId, Ev.logDebug]
  match body sid with
  | (Except.ok a, evs) =>
    match db OrmOp.sessionFlush with
    | Except.ok _ => ⟨Except.ok a, st1, pre ++ evs ++ [Ev.orm OrmOp.sessionFlush]⟩
    | Except.error e =>
      let c := closeSession st1
      ⟨Except.error e, c.1,
        pre ++ evs ++ [Ev.orm OrmOp.sessionFlush] ++ c.2 ++ [Ev.logError e]⟩
  | (Except.error e, evs) =>
    let c := closeSession st1
    ⟨Except.error e, c.1, pre ++ evs ++ c.2 ++ [Ev.logError e]⟩

/-- Issue one ORM call inside a session body and continue with its result. -/
def execOrm {α : Type} (db : Db) (op : OrmOp) (k : DbResult → Except Exn α × List Ev) :
    Except Exn α × List Ev :=
  match db op with
  | Except.error e => (Except.error e, [Ev.orm op])
  | Except.ok r =>
    let t := k r
    (t.1, Ev.orm op :: t.2)

/-- The `try/except Exception: await self.close(); raise` wrapper several
`WriteRepository` methods put around their session block: on error it
closes again (a no-op, the session context manager already closed) and
re-raises without further logging. -/
def rethrowClose {α : Type} (r : OpResult α) : OpResult α :=
  match r.res with
  | Except.ok _ => r
  | Except.error _ =>
    let c := closeSession r.state
    ⟨r.res, c.1, r.events ++ c.2⟩

/-! ## DDLRepository (sqlalchemy_facade/src/ddl_repository.py)

DDL operations never touch `self.__session` (it stays `None` forever);
each statement runs on a fresh `engine.begin()` connection.  So their
embeddings carry no `RepoState`: they return the Python outcome and the
event trace only. -/

namespace DDLRepository

/-- `create_schemas`: per schema, open a connection and execute
`CreateSchema(name=schema)` inside `try/except Exception: pass` — any
exception from the execute is swallowed, so the loop always runs to the
end and the method always returns normally, logging nothing. -/
def create_schemas (db : Db) (schemas : List String) : Except Exn Unit × List Ev :=
  (Except.ok (),
    schemas.flatMap (fun schema =>
      let op := OrmOp.createSchema schema
      match db op with
      | Except.ok _ => [Ev.connBegin, Ev.orm op]
      | Except.error _ => [Ev.connBegin, Ev.orm op]))

/-- `create_tables`: one connection, `Entity.metadata.create_all`; no
try/except, so a failure propagates to the caller unlogged. -/
def create_tables (db : Db) : Except Exn Unit × List Ev :=
  match db OrmOp.createAllTables with
  | Except.ok _ => (Except.ok (), [Ev.connBegin, Ev.orm OrmOp.createAllTables])
  | Except.error e => (Except.error e, [Ev.connBegin, Ev.orm OrmOp.createAllTables])

/-- `drop_tables`: one connection, `Entity.metadata.drop_all`; no
try/except. -/
def drop_tables (db : Db) : Except Exn Unit × List Ev :=
  match db OrmOp.dropAllTables with
  | Except.ok _ => (Except.ok (), [Ev.connBegin, Ev.orm OrmOp.dropAllTables])
  | Except.error e => (Except.error e, [Ev.connBegin, Ev.orm OrmOp.dropAllTables])

end DDLRepository

/-- Python's `str.split(".")` on the string's characters:
`"a.b" ↦ ["a","b"]`, `"" ↦ [""]`, `"a..b" ↦ ["a","","b"]`.  The result is
never empty. -/
def pySplitDot : List Char → List (List Char)
  | [] => [[]]
  | c :: rest =>
    if c = '.' then [] :: pySplitDot rest
    else
      match pySplitDot rest with
      | [] => [[c]]
      | p :: ps => (c :: p) :: ps

namespace DDLRepository

/-- `create_sequences`: per input string, open a connection, take
`sequence.split(".")[0]` as schema and `sequence.split(".")[1]` as name
(an `IndexError` when the string has no `"."`, which propagates), then
execute `CreateSequence(Sequence(name=name, start=1, increment=1,
schema=schema))`.  A propagating exception stops the loop. -/
def create_sequences (db : Db) : List (List Char) → Except Exn Unit × List Ev
  | [] => (Except.ok (), [])
  | sequence :: rest =>
    let parts := pySplitDot sequence
    match parts.get? 1 with
    | none => (Except.error Exn.indexError, [Ev.connBegin])
    | some name =>
      let schema := parts.headI
      let op := OrmOp.createSequence schema name (some 1) (some 1)
      match db op with
      | Except.error e => (Except.error e, [Ev.connBegin, Ev.orm op])
      | Except.ok _ =>
        let t := create_sequences db rest
        (t.1, [Ev.connBegin, Ev.orm op] ++ t.2)

/-- `seed_data`: one connection, `connection.execute(table.insert(), data)`;
no try/except. -/
def seed_data (db : Db) (table : String) (data : List (List (String × PyVal))) :
    Except Exn Unit × List Ev :=
  match db (OrmOp.seedData table data) with
  | Except.ok _ => (Except.ok (), [Ev.connBegin, Ev.orm (OrmOp.seedData table data)])
  | Except.error e => (Except.error e, [Ev.connBegin, Ev.orm (OrmOp.seedData table data)])

end DDLRepository

/-! ## ReadRepository (sqlalchemy_facade/src/read_repository.py)

Read queries are modelled relationally: the database is a table, a list of
model objects, each object a list of attribute/value pairs; `filter_by`
keeps the rows whose named attributes equal the given values, and
`select(model)` yields each surviving object as a 1-tuple. -/

/-- A model object: its attributes and their values (Python attribute
names are unique). -/
abbrev RowObj : Type := List (String × PyVal)

/-- `filter_by(**filters)`: every filter key must be an attribute of the
row with the given value. -/
def matchesFilters (filters : List (String × PyVal)) (row : RowObj) : Bool :=
  filters.all (fun kv => row.lookup kv.1 = some kv.2)

/-- `rows.fetchone()[0]` guarded by `except Exception: return None`:
`fetchone()` is `None` when no row was fetched (then `None[0]` raises,
caught, `None` returned), otherwise `[0]` takes the first element of the
first tuple (an empty tuple would also raise and yield `None`). -/
def fetchFirstColumn {β : Type} (rows : List (List β)) : Option β :=
  match rows.head? with
  | none => none
  | some t => t.head?

namespace ReadRepository

/-- `select`: inside a fresh session, execute
`select(model).filter_by(**filters)` and return `fetchone()[0]`, with the
fetch guarded so that a missing row gives `None` instead of an
exception. -/
def select (table : List RowObj) (st : RepoState) (model : String)
    (filters : List (String × PyVal)) : OpResult (Option RowObj) :=
  readWithSession st (fun _ =>
    let rows := (table.filter (matchesFilters filters)).map (fun r => [r])
    (Except.ok (fetchFirstColumn rows), [Ev.orm (OrmOp.selectWhere model filters)]))

/-- `select_all`: inside a fresh session, execute the same query and
destructure every fetched 1-tuple. -/
def select_all (table : List RowObj) (st : RepoState) (model : String)
    (filters : List (String × PyVal)) : OpResult (List RowObj) :=
  readWithSession st (fun _ =>
    (Except.ok (table.filter (matchesFilters filters)),
      [Ev.orm (OrmOp.selectWhere model filters)]))

/-- `execute`: run an arbitrary statement inside a fresh session and
return `fetchall()`. -/
def execute (db : Db) (st : RepoState) (statement : String) :
    OpResult (List (List PyVal)) :=
  readWithSession st (fun _ =>
    execOrm db (OrmOp.rawStatement statement) (fun r => (Except.ok r.rows, [])))

end ReadRepository

/-! ## WriteRepository (sqlalchemy_facade_async/src/write_repository.py) -/

/-- An ORM entity as `upsert`/`insert_ignore*` see it: its table and its
`__dict__`. -/
structure Entity where
  table : String
  dict : List (String × PyVal)
deriving DecidableEq, Repr

/-- `properties.pop("_sa_instance_state")`: the copied `__dict__` without
the SQLAlchemy instance-state entry. -/
def popSaState (dict : List (String × PyVal)) : List (String × PyVal) :=
  dict.filter (fun kv => kv.1 ≠ "_sa_instance_state")

/-- `[row for row, in rows.fetchall()]`: destructure each fetched tuple as
a 1-tuple; a tuple of any other arity raises `ValueError`. -/
def destructureSingles {β : Type} : List (List β) → Except Exn (List β)
  | [] => Except.ok []
  | [x] :: rest =>
    match destructureSingles rest with
    | Except.ok l => Except.ok (x :: l)
    | Except.error e => Except.error e
  | _ :: _ => Except.error Exn.valueError

namespace WriteRepository

/-- `start_transaction`: `session.begin()` inside the session context
manager. -/
def start_transaction (db : Db) (st : RepoState) : OpResult Unit :=
  writeWithSession db st (fun _ =>
    execOrm db OrmOp.sessionBegin (fun _ => (Except.ok (), [])))

/-- `close`: close the stored session (if any) and store `None`. -/
def close (st : RepoState) : OpResult Unit :=
  let c := closeSession st
  ⟨Except.ok (), c.1, c.2⟩

/-- `commit`: `session.commit()` inside the session context manager, then
`await self.close()`; an exception propagates before the close runs. -/
def commit (db : Db) (st : RepoState) : OpResult Unit :=
  let r := writeWithSession db st (fun _ =>
    execOrm db OrmOp.sessionCommit (fun _ => (Except.ok (), [])))
  match r.res with
  | Except.ok _ =>
    let c := closeSession r.state
    ⟨Except.ok (), c.1, r.events ++ c.2⟩
  | Except.error _ => r

/-- `rollback`: `session.rollback()` inside the session context manager
(no close on the normal path). -/
def rollback (db : Db) (st : RepoState) : OpResult Unit :=
  writeWithSession db st (fun _ =>
    execOrm db OrmOp.sessionRollback (fun _ => (Except.ok (), [])))

/-- `insert`: `session.add(row)` inside the session context manager, the
whole wrapped in `try/except: await self.close(); raise`. -/
def insert (db : Db) (st : RepoState) : OpResult Unit :=
  rethrowClose (writeWithSession db st (fun _ => (Except.ok (), [Ev.orm OrmOp.sessionAdd])))

/-- `bulk_insert`: `session.add_all(rows)` with the same wrapper as
`insert`. -/
def bulk_insert (db : Db) (st : RepoState) : OpResult Unit :=
  rethrowClose (writeWithSession db st (fun _ => (Except.ok (), [Ev.orm OrmOp.sessionAddAll])))

/-- `upsert(entity, index_elements=["id"])`: build
`insert(entity.__table__).values(properties).on_conflict_do_update(
index_elements=index_elements, set_=properties)` from the entity's
`__dict__` (minus the instance state), execute it, then flush. -/
def upsert (db : Db) (st : RepoState) (entity : Entity) (indexElements : List String) :
    OpResult Unit :=
  writeWithSession db st (fun _ =>
    let properties := popSaState entity.dict
    execOrm db (OrmOp.insertOnConflictDoUpdate entity.table properties indexElements)
      (fun _ => execOrm db OrmOp.sessionFlush (fun _ => (Except.ok (), []))))

/-- `upsert` called without the caller supplying `index_elements`: the
Python default `["id"]` is used. -/
def upsertDefault (db : Db) (st : RepoState) (entity : Entity) : OpResult Unit :=
  upsert db st entity ["id"]

/-- `insert_ignore`: `insert(...).on_conflict_do_nothing()` from the
entity's `__dict__`, then flush. -/
def insert_ignore (db : Db) (st : RepoState) (entity : Entity) : OpResult Unit :=
  writeWithSession db st (fun _ =>
    let properties := popSaState entity.dict
    execOrm db (OrmOp.insertOnConflictDoNothing entity.table properties)
      (fun _ => execOrm db OrmOp.sessionFlush (fun _ => (Except.ok (), []))))

/-- `insert_ignore_get_id`: execute the conflict-ignoring insert and
flush; if `result.inserted_primary_key` is truthy return its first
element, otherwise select the row back by the scalar-typed properties and
return `fetchone()[0]` (unguarded: no row raises). -/
def insert_ignore_get_id (db : Db) (st : RepoState) (entity : Entity) : OpResult PyVal :=
  writeWithSession db st (fun _ =>
    let properties := popSaState entity.dict
    execOrm db (OrmOp.insertOnConflictDoNothing entity.table properties) (fun res =>
      execOrm db OrmOp.sessionFlush (fun _ =>
        if res.insertedPrimaryKey.isEmpty then
          let ntp := properties.filter (fun kv => kv.2.isScalar)
          execOrm db (OrmOp.selectWhere entity.table ntp) (fun res2 =>
            match res2.rows.head? with
            | none => (Except.error Exn.typeError, [])
            | some t =>
              match t.head? with
              | none => (Except.error Exn.indexError, [])
              | some v => (Except.ok v, []))
        else
          (Except.ok res.insertedPrimaryKey.headI, []))))

/-- `update`: select the matching rows, destructure them, and set each
given property on each row object in Python; wrapped in
`try/except: await self.close(); raise`.  No ORM update statement is
built. -/
def update (db : Db) (st : RepoState) (model : String)
    (filters properties : List (String × PyVal)) : OpResult Unit :=
  rethrowClose (writeWithSession db st (fun _ =>
    execOrm db (OrmOp.selectWhere model filters) (fun res =>
      match destructureSingles res.rows with
      | Except.error e => (Except.error e, [])
      | Except.ok objs =>
        (Except.ok (),
          objs.flatMap (fun _ =>
            properties.map (fun kv => Ev.rowMutated kv.1 kv.2))))))

/-- `delete`: execute `delete(model).filter_by(**filters)`; wrapped in
`try/except: await self.close(); raise`. -/
def delete (db : Db) (st : RepoState) (model : String)
    (filters : List (String × PyVal)) : OpResult Unit :=
  rethrowClose (writeWithSession db st (fun _ =>
    execOrm db (OrmOp.deleteWhere model filters) (fun _ => (Except.ok (), []))))

/-- `execute`: run an arbitrary statement inside the session context
manager. -/
def execute (db : Db) (st : RepoState) (statement : String) : OpResult Unit :=
  writeWithSession db st (fun _ =>
    execOrm db (OrmOp.rawStatement statement) (fun _ => (Except.ok (), [])))

end WriteRepository

/-! ## Module import of read_repository.py

`read_repository.py` binds its logger with `logging.getlogger(__name__)`.
Python attribute access is case-sensitive and the stdlib `logging` module
exports `getLogger`, not `getlogger`, so the module body raises
`AttributeError` at that line, before the `class ReadRepository` statement
runs.  We model module execution as a statement list interpreted over the
growing set of names the module has bound so far. -/

/-- Top-level statements a module body can contain (the forms used by
`read_repository.py`). -/
inductive PyStmt where
  | importModule (m : String)
  | fromImport (m name : String)
  | assignCallAttr (target mod attr : String)
  | classDef (name : String)
deriving DecidableEq, Repr

/-- Modelled from Python's standard library: the public attribute surface
of the `logging` module (the names relevant here).  It contains
`getLogger` and, attribute names being case-sensitive, nothing spelled
`getlogger`. -/
def loggingModuleAttrs : List String :=
  ["getLogger", "getLoggerClass", "getLogRecordFactory", "basicConfig",
   "debug", "info", "warning", "error", "exception", "critical", "log",
   "disable", "shutdown", "addLevelName", "getLevelName", "captureWarnings",
   "Logger", "Handler", "StreamHandler", "FileHandler", "NullHandler",
   "Formatter", "Filter", "LogRecord", "LoggerAdapter",
   "DEBUG", "INFO", "WARNING", "WARN", "ERROR", "CRITICAL", "FATAL", "NOTSET"]

/-- Attribute lookup on an imported module: resolved against the modelled
surface for `logging`; the other imported modules do export the names this
file asks of them. -/
def moduleHasAttr (mod attr : String) : Bool :=
  if mod = "logging" then loggingModuleAttrs.contains attr else true

/-- Execute a module body: bind names in order; an attribute access on a
module that lacks the attribute raises `AttributeError` and aborts the
import.  Returns the outcome and the names bound before the abort. -/
def runModuleBody (env : List String) : List PyStmt → Except Exn Unit × List String
  | [] => (Except.ok (), env)
  | PyStmt.importModule m :: rest => runModuleBody (env ++ [m]) rest
  | PyStmt.fromImport _ n :: rest => runModuleBody (env ++ [n]) rest
  | PyStmt.assignCallAttr t mod attr :: rest =>
    if moduleHasAttr mod attr then runModuleBody (env ++ [t]) rest
    else (Except.error Exn.attributeError, env)
  | PyStmt.classDef n :: rest => runModuleBody (env ++ [n]) rest

/-- The top-level statements of `read_repository.py`, in file order. -/
def readRepositoryModule : List PyStmt :=
  [PyStmt.importModule "logging",
   PyStmt.fromImport "sqlalchemy.future" "select",
   PyStmt.fromImport "sqlalchemy.orm" "sessionmaker",
   PyStmt.fromImport "contextlib" "asynccontextmanager",
   PyStmt.fromImport "sqlalchemy.ext.asyncio" "AsyncEngine",
   PyStmt.fromImport "sqlalchemy.ext.asyncio" "AsyncSession",
   PyStmt.assignCallAttr "logger" "logging" "getlogger",
   PyStmt.classDef "ReadRepository"]

/-! ## Concrete oracles and inputs used in the theorems below -/

/-- An oracle on which every ORM call fails. -/
def dbFailAll : Db := fun _ => Except.error (Exn.dbError 0)

/-- An oracle on which a select fetches one single-column row and every
other call succeeds emptily. -/
def dbOneRow : Db := fun op =>
  match op with
  | OrmOp.selectWhere _ _ => Except.ok ⟨[[PyVal.vInt 7]], []⟩
  | _ => Except.ok emptyResult

/-- An oracle whose insert reports no inserted primary key (the row
already existed) and whose select then fetches the existing row. -/
def dbNoPk : Db := fun op =>
  match op with
  | OrmOp.selectWhere _ _ => Except.ok ⟨[[PyVal.vInt 9]], []⟩
  | _ => Except.ok emptyResult

/-- An oracle whose insert reports an inserted primary key. -/
def dbWithPk : Db := fun _ => Except.ok ⟨[], [PyVal.vInt 4]⟩

/-- A sample entity: one `id` attribute plus the SQLAlchemy instance
state. -/
def sampleEntity : Entity := ⟨"t", [("id", PyVal.vInt 3), ("_sa_instance_state", PyVal.vNone)]⟩

/-! ## Generic lemmas about the session context managers -/
theorem pySplitDot_ne_nil (s : List Char) : pySplitDot s ≠ [] := by
  induction s with
  | nil => simp [pySplitDot]
  | cons c rest ih =>
    simp only [pySplitDot]
    by_cases h : c = '.'
    · simp [h]
    · simp only [h, if_false]
      cases hr : pySplitDot rest with
      | nil => simp
      | cons p ps => simp

theorem pySplitDot_length_of_dot (s : List Char) (h : '.' ∈ s) :
    2 ≤ (pySplitDot s).length := by
  induction s with
  | nil => cases h
  | cons c rest ih =>
    simp only [pySplitDot]
    by_cases hc : c = '.'
    · simp only [hc, if_true, List.length_cons]
      have := pySplitDot_ne_nil rest
      have : 1 ≤ (pySplitDot rest).length := by
        cases hr : pySplitDot rest with
        | nil => exact absurd hr this
        | cons p ps => simp
      omega
    · have hm : '.' ∈ rest := by
        rcases List.mem_cons.mp h with h1 | h1
        · exact absurd h1.symm hc
        · exact h1
      have h2 := ih hm
      simp only [hc, if_false]
      cases hr : pySplitDot rest with
      | nil => exact absurd hr (pySplitDot_ne_nil rest)
      | cons p ps =>
        rw [hr] at h2
        simpa using h2

theorem pySplitDot_length_of_no_dot (s : List Char) (h : '.' ∉ s) :
    (pySplitDot s).length = 1 := by
  induction s with
  | nil => simp [pySplitDot]
  | cons c rest ih =>
    simp only [pySplitDot]
    have hc : c ≠ '.' := fun hc => h (hc ▸ List.mem_cons_self c rest)
    have hm : '.' ∉ rest := fun hm => h (List.mem_cons_of_mem c hm)
    simp only [hc, if_false]
    cases hr : pySplitDot rest with
    | nil => exact absurd hr (pySplitDot_ne_nil rest)
    | cons p ps =>
      have := ih hm
      rw [hr] at this
      simpa using this

theorem readWithSession_ok {α : Type} (st : RepoState) (body : Nat → Except Exn α × List Ev)
    (a : α) (evs : List Ev) (h : body st.nextId = (Except.ok a, evs)) :
    readWithSession st body =
      ⟨Except.ok a, ⟨none, st.nextId + 1⟩,
        [Ev.sessionCreated st.nextId, Ev.logDebug] ++ evs ++
          [Ev.sessionClosed st.nextId, Ev.logDebug]⟩ := by
  simp [readWithSession, h, closeSession]

theorem readWithSession_err {α : Type} (st : RepoState) (body : Nat → Except Exn α × List Ev)
    (e : Exn) (evs : List Ev) (h : body st.nextId = (Except.error e, evs)) :
    readWithSession st body =
      ⟨Except.error e, ⟨none, st.nextId + 1⟩,
        [Ev.sessionCreated st.nextId, Ev.logDebug] ++ evs ++
          [Ev.logError e] ++ [Ev.sessionClosed st.nextId, Ev.logDebug]⟩ := by
  simp [readWithSession, h, closeSession]

theorem writeWithSession_ok_none {α : Type} (db : Db) (st : RepoState)
    (body : Nat → Except Exn α × List Ev) (a : α) (evs : List Ev) (r : DbResult)
    (hs : st.session = none) (hb : body st.nextId = (Except.ok a, evs))
    (hf : db OrmOp.sessionFlush = Except.ok r) :
    writeWithSession db st body =
      ⟨Except.ok a, ⟨some st.nextId, st.nextId + 1⟩,
        [Ev.sessionCreated st.nextId, Ev.logDebug] ++ evs ++ [Ev.orm OrmOp.sessionFlush]⟩ := by
  have hsid : writeSid st = st.nextId := by simp [writeSid, hs]
  simp [writeWithSession, hs, hsid, hb, hf]

theorem writeWithSession_ok_some {α : Type} (db : Db) (st : RepoState)
    (body : Nat → Except Exn α × List Ev) (a : α) (evs : List Ev) (r : DbResult) (s : Nat)
    (hs : st.session = some s) (hb : body s = (Except.ok a, evs))
    (hf : db OrmOp.sessionFlush = Except.ok r) :
    writeWithSession db st body = ⟨Except.ok a, st, evs ++ [Ev.orm OrmOp.sessionFlush]⟩ := by
  have hsid : writeSid st = s := by simp [writeSid, hs]
  simp [writeWithSession, hs, hsid, hb, hf]

theorem writeWithSession_err_none {α : Type} (db : Db) (st : RepoState)
    (body : Nat → Except Exn α × List Ev) (e : Exn) (evs : List Ev)
    (hs : st.session = none) (hb : body st.nextId = (Except.error e, evs)) :
    writeWithSession db st body =
      ⟨Except.error e, ⟨none, st.nextId + 1⟩,
        [Ev.sessionCreated st.nextId, Ev.logDebug] ++ evs ++
          [Ev.sessionClosed st.nextId, Ev.logDebug] ++ [Ev.logError e]⟩ := by
  have hsid : writeSid st = st.nextId := by simp [writeSid, hs]
  simp [writeWithSession, hs, hsid, hb, closeSession]

theorem writeWithSession_err_some {α : Type} (db : Db) (st : RepoState)
    (body : Nat → Except Exn α × List Ev) (e : Exn) (evs : List Ev) (s : Nat)
    (hs : st.session = some s) (hb : body s = (Except.error e, evs)) :
    writeWithSession db st body =
      ⟨Except.error e, ⟨none, st.nextId⟩,
        evs ++ [Ev.sessionClosed s, Ev.logDebug] ++ [Ev.logError e]⟩ := by
  have hsid : writeSid st = s := by simp [writeSid, hs]
  simp [writeWithSession, hs, hsid, hb, closeSession]

/-! ## Claim C6 -/

/-- C6: importing `read_repository.py` raises `AttributeError` at the
`logger = logging.getlogger(__name__)` line (the `logging` module exports
`getLogger`, not `getlogger`), before the `class ReadRepository` statement
runs; only the six import bindings exist at the abort, so `ReadRepository`
is never defined and none of its operations can be invoked. -/
theorem claim_C6 :
    runModuleBody [] readRepositoryModule =
      (Except.error Exn.attributeError,
        ["logging", "select", "sessionmaker", "asynccontextmanager",
         "AsyncEngine", "AsyncSession"]) ∧
    "ReadRepository" ∉ (runModuleBody [] readRepositoryModule).2 ∧
    moduleHasAttr "logging" "getlogger" = false ∧
    moduleHasAttr "logging" "getLogger" = true := by
  refine ⟨rfl, by decide, rfl, rfl⟩

/-! ## Claim C7 -/

/-- C7: for every table, repository state, model and filter dictionary,
`ReadRepository.select` returns `None` (rather than raising) when no row
matches the filters, and returns the first column of the first fetched
row — the first matching model object — when at least one row matches. -/
theorem claim_C7 (table : List RowObj) (st : RepoState) (model : String)
    (filters : List (String × PyVal)) :
    (table.filter (matchesFilters filters) = [] →
      (ReadRepository.select table st model filters).res = Except.ok none) ∧
    (∀ x l, table.filter (matchesFilters filters) = x :: l →
      (ReadRepository.select table st model filters).res = Except.ok (some x)) := by
  constructor
  · intro h
    simp [ReadRepository.select, readWithSession, closeSession, h, fetchFirstColumn]
  · intro x l h
    simp [ReadRepository.select, readWithSession, closeSession, h, fetchFirstColumn]

/-- C7 witness: on a one-row table, a non-matching filter yields `None`
and a matching filter yields the row object. -/
theorem claim_C7_witness :
    (ReadRepository.select [[("id", PyVal.vInt 1), ("x", PyVal.vInt 5)]] initState "m"
      [("id", PyVal.vInt 2)]).res = Except.ok none ∧
    (ReadRepository.select [[("id", PyVal.vInt 1), ("x", PyVal.vInt 5)]] initState "m"
      [("id", PyVal.vInt 1)]).res =
      Except.ok (some [("id", PyVal.vInt 1), ("x", PyVal.vInt 5)]) :=
  ⟨(claim_C7 [[("id", PyVal.vInt 1), ("x", PyVal.vInt 5)]] initState "m"
      [("id", PyVal.vInt 2)]).1 (by decide),
   (claim_C7 [[("id", PyVal.vInt 1), ("x", PyVal.vInt 5)]] initState "m"
      [("id", PyVal.vInt 1)]).2 [("id", PyVal.vInt 1), ("x", PyVal.vInt 5)] [] (by decide)⟩

/-! ## Claim C8 -/

/-- C8: `DDLRepository.create_sequences` requires dot-qualified
`schema.name` strings: for a string containing a `'.'` it issues the
`CreateSequence` call built from the first two dot-separated parts, and
for a string with no `'.'` it fails with an `IndexError`. -/
theorem claim_C8 (db : Db) (s : List Char) :
    ('.' ∈ s →
      Ev.orm (OrmOp.createSequence ((pySplitDot s).getD 0 []) ((pySplitDot s).getD 1 [])
        (some 1) (some 1)) ∈ (DDLRepository.create_sequences db [s]).2) ∧
    ('.' ∉ s → (DDLRepository.create_sequences db [s]).1 = Except.error Exn.indexError) := by
  constructor
  · intro h
    have h2 := pySplitDot_length_of_dot s h
    obtain ⟨p0, rest, hp⟩ : ∃ p0 rest, pySplitDot s = p0 :: rest := by
      cases hp : pySplitDot s with
      | nil => exact absurd hp (pySplitDot_ne_nil s)
      | cons a b => exact ⟨a, b, rfl⟩
    obtain ⟨p1, rest2, hr⟩ : ∃ p1 rest2, rest = p1 :: rest2 := by
      cases hr : rest with
      | nil => rw [hp, hr] at h2; simp at h2
      | cons a b => exact ⟨a, b, rfl⟩
    subst hr
    cases hd : db (OrmOp.createSequence p0 p1 (some 1) (some 1)) <;>
      simp [DDLRepository.create_sequences, hp, hd, List.headI]
  · intro h
    have h1 := pySplitDot_length_of_no_dot s h
    obtain ⟨p, hp⟩ : ∃ p, pySplitDot s = [p] := by
      cases hp : pySplitDot s with
      | nil => exact absurd hp (pySplitDot_ne_nil s)
      | cons a b =>
        rw [hp] at h1
        simp at h1
        exact ⟨a, by rw [h1]⟩
    simp [DDLRepository.create_sequences, hp]

/-- C8 witness: `"s.q"` issues `CreateSequence` for schema `s`, name `q`;
`"sq"` raises `IndexError`. -/
theorem claim_C8_witness :
    Ev.orm (OrmOp.createSequence ['s'] ['q'] (some 1) (some 1)) ∈
      (DDLRepository.create_sequences dbOk [['s', '.', 'q']]).2 ∧
    (DDLRepository.create_sequences dbOk [['s', 'q']]).1 = Except.error Exn.indexError :=
  ⟨(claim_C8 dbOk ['s', '.', 'q']).1 (by decide),
   (claim_C8 dbOk ['s', 'q']).2 (by decide)⟩

/-! ## Claim C1 -/

/-- C1 counterexample: on an oracle whose `CreateSchema` call raises,
`DDLRepository.create_schemas` still returns normally, its trace contains
no error-log event, and the exception never reaches the caller — the
`except Exception: pass` swallows it, so the claim that every exception
is logged and re-raised fails here. -/
theorem claim_C1_counterexample :
    dbFailAll (OrmOp.createSchema "s1") = Except.error (Exn.dbError 0) ∧
    DDLRepository.create_schemas dbFailAll ["s1"] =
      (Except.ok (), [Ev.connBegin, Ev.orm (OrmOp.createSchema "s1")]) ∧
    (DDLRepository.create_schemas dbFailAll ["s1"]).2.countP Ev.isLogError = 0 :=
  ⟨rfl, rfl, rfl⟩

/-! ## Claim C2 -/

/-- C2 counterexample: a first `WriteRepository.insert` on a fresh
repository leaves session `0` stored; a second `insert` runs without any
session-creation event and still ends with session `0` stored — it reused
the session left over from the previous operation, so the claim that
every operation opens a fresh session fails here. -/
theorem claim_C2_counterexample :
    (WriteRepository.insert dbOk initState).state.session = some 0 ∧
    (WriteRepository.insert dbOk (WriteRepository.insert dbOk initState).state).events =
      [Ev.orm OrmOp.sessionAdd, Ev.orm OrmOp.sessionFlush] ∧
    (WriteRepository.insert dbOk
      (WriteRepository.insert dbOk initState).state).events.countP Ev.isSessionCreated = 0 ∧
    (WriteRepository.insert dbOk (WriteRepository.insert dbOk initState).state).state.session =
      some 0 :=
  ⟨rfl, rfl, rfl, rfl⟩

/-! ## Claim C3 -/

/-- C3 counterexample: `WriteRepository.insert` on a fresh repository
returns normally with session `0` still stored and no session-closed
event in its trace — the write repository's session context manager has
no `finally` close, so the close-on-exit claim fails here. -/
theorem claim_C3_counterexample :
    (WriteRepository.insert dbOk initState).res = Except.ok () ∧
    (WriteRepository.insert dbOk initState).state.session = some 0 ∧
    (WriteRepository.insert dbOk initState).events =
      [Ev.sessionCreated 0, Ev.logDebug, Ev.orm OrmOp.sessionAdd, Ev.orm OrmOp.sessionFlush] :=
  ⟨rfl, rfl, rfl⟩

/-! ## Claim C4 -/

/-- C4 counterexample: on an oracle whose select fetches one row,
`WriteRepository.update` issues zero ORM update calls — it issues one
select and mutates the row in Python — and on an oracle whose insert
reports no inserted primary key, `insert_ignore_get_id` issues an
additional select after its single insert; both contradict the
single-ORM-call-of-the-named-kind claim. -/
theorem claim_C4_counterexample :
    (WriteRepository.update dbOneRow initState "m" [("id", PyVal.vInt 1)]
      [("x", PyVal.vInt 2)]).res = Except.ok () ∧
    (WriteRepository.update dbOneRow initState "m" [("id", PyVal.vInt 1)]
      [("x", PyVal.vInt 2)]).events.countP Ev.isUpdateCall = 0 ∧
    (WriteRepository.update dbOneRow initState "m" [("id", PyVal.vInt 1)]
      [("x", PyVal.vInt 2)]).events.countP Ev.isSelectCall = 1 ∧
    (WriteRepository.update dbOneRow initState "m" [("id", PyVal.vInt 1)]
      [("x", PyVal.vInt 2)]).events.countP Ev.isRowMutated = 1 ∧
    (WriteRepository.insert_ignore_get_id dbNoPk initState sampleEntity).res =
      Except.ok (PyVal.vInt 9) ∧
    (WriteRepository.insert_ignore_get_id dbNoPk initState sampleEntity).events.countP
      Ev.isInsertCall = 1 ∧
    (WriteRepository.insert_ignore_get_id dbNoPk initState sampleEntity).events.countP
      Ev.isSelectCall = 1 := by
  refine ⟨rfl, by decide, by decide, by decide, rfl, by decide, by decide⟩

/-! ## Claim C5 -/

/-- C5 counterexample: the caller passes only the string `"s.q"`, yet
`create_sequences` issues `CreateSequence` with `start=1` and
`increment=1` fixed by the facade; and `upsert` called without an
`index_elements` argument issues the conflict-update with the facade's
default `["id"]` — both are parameters the caller did not supply, so the
no-added-defaults claim fails here. -/
theorem claim_C5_counterexample :
    (DDLRepository.create_sequences dbOk [['s', '.', 'q']]).2 =
      [Ev.connBegin, Ev.orm (OrmOp.createSequence ['s'] ['q'] (some 1) (some 1))] ∧
    Ev.orm (OrmOp.insertOnConflictDoUpdate "t" [("id", PyVal.vInt 3)] ["id"]) ∈
      (WriteRepository.upsertDefault dbOk initState sampleEntity).events := by
  refine ⟨rfl, by decide⟩

theorem closeSession_fst_session (st : RepoState) : (closeSession st).1.session = none := by
  cases h : st.session with
  | none => simp [closeSession, h]
  | some s => simp [closeSession, h]

theorem rethrowClose_of_ok {α : Type} (r : OpResult α) (a : α) (h : r.res = Except.ok a) :
    rethrowClose r = r := by
  simp [rethrowClose, h]

theorem create_schemas_countP_zero (db : Db) (schemas : List String) (p : Ev → Bool)
    (hc : p Ev.connBegin = false) (ho : ∀ op, p (Ev.orm op) = false) :
    (DDLRepository.create_schemas db schemas).2.countP p = 0 := by
  induction schemas with
  | nil => rfl
  | cons s rest ih =>
    have hstep : (DDLRepository.create_schemas db (s :: rest)).2 =
        (match db (OrmOp.createSchema s) with
          | Except.ok _ => [Ev.connBegin, Ev.orm (OrmOp.createSchema s)]
          | Except.error _ => [Ev.connBegin, Ev.orm (OrmOp.createSchema s)]) ++
          (DDLRepository.create_schemas db rest).2 := by
      simp [DDLRepository.create_schemas]
    rw [hstep, List.countP_append, ih]
    cases db (OrmOp.createSchema s) <;> simp [List.countP_cons, hc, ho]

/-- C1 (amended): exceptions raised in the body of a read- or
write-repository session scope are logged and re-raised unchanged to the
caller; `DDLRepository.create_schemas`, however, swallows exceptions from
its per-schema `CreateSchema` calls — it always returns normally and logs
nothing. -/
theorem claim_C1_amended {α : Type} (db : Db) (st : RepoState)
    (body : Nat → Except Exn α × List Ev) (e : Exn) (evs : List Ev) (schemas : List String) :
    (body st.nextId = (Except.error e, evs) →
      (readWithSession st body).res = Except.error e ∧
      Ev.logError e ∈ (readWithSession st body).events) ∧
    (body (writeSid st) = (Except.error e, evs) →
      (writeWithSession db st body).res = Except.error e ∧
      Ev.logError e ∈ (writeWithSession db st body).events) ∧
    ((DDLRepository.create_schemas db schemas).1 = Except.ok () ∧
      (DDLRepository.create_schemas db schemas).2.countP Ev.isLogError = 0) := by
  refine ⟨?_, ?_, rfl, create_schemas_countP_zero db schemas Ev.isLogError rfl (fun _ => rfl)⟩
  · intro h
    rw [readWithSession_err st body e evs h]
    simp
  · intro h
    cases hs : st.session with
    | none =>
      have hsid : writeSid st = st.nextId := by simp [writeSid, hs]
      rw [hsid] at h
      rw [writeWithSession_err_none db st body e evs hs h]
      simp
    | some s =>
      have hsid : writeSid st = s := by simp [writeSid, hs]
      rw [hsid] at h
      rw [writeWithSession_err_some db st body e evs s hs h]
      simp

/-- C1 witness: a body raising `dbError 1` inside either session scope is
logged and re-raised, and `create_schemas` on a failing oracle logs
nothing and returns normally. -/
theorem claim_C1_amended_witness :
    (readWithSession initState
      (fun _ => ((Except.error (Exn.dbError 1) : Except Exn Unit), ([] : List Ev)))).res =
      Except.error (Exn.dbError 1) ∧
    Ev.logError (Exn.dbError 1) ∈
      (readWithSession initState
        (fun _ => ((Except.error (Exn.dbError 1) : Except Exn Unit), ([] : List Ev)))).events ∧
    (writeWithSession dbFailAll initState
      (fun _ => ((Except.error (Exn.dbError 1) : Except Exn Unit), ([] : List Ev)))).res =
      Except.error (Exn.dbError 1) ∧
    Ev.logError (Exn.dbError 1) ∈
      (writeWithSession dbFailAll initState
        (fun _ => ((Except.error (Exn.dbError 1) : Except Exn Unit), ([] : List Ev)))).events ∧
    (DDLRepository.create_schemas dbFailAll ["a"]).1 = Except.ok () ∧
    (DDLRepository.create_schemas dbFailAll ["a"]).2.countP Ev.isLogError = 0 := by
  obtain ⟨h1, h2, h3⟩ := claim_C1_amended (α := Unit) dbFailAll initState
    (fun _ => ((Except.error (Exn.dbError 1) : Except Exn Unit), ([] : List Ev)))
    (Exn.dbError 1) [] ["a"]
  have r := h1 rfl
  have w := h2 rfl
  exact ⟨r.1, r.2, w.1, w.2, h3.1, h3.2⟩

theorem writeWithSession_flushErr_none {α : Type} (db : Db) (st : RepoState)
    (body : Nat → Except Exn α × List Ev) (a : α) (evs : List Ev) (e : Exn)
    (hs : st.session = none) (hb : body st.nextId = (Except.ok a, evs))
    (hf : db OrmOp.sessionFlush = Except.error e) :
    writeWithSession db st body =
      ⟨Except.error e, ⟨none, st.nextId + 1⟩,
        [Ev.sessionCreated st.nextId, Ev.logDebug] ++ evs ++ [Ev.orm OrmOp.sessionFlush] ++
          [Ev.sessionClosed st.nextId, Ev.logDebug] ++ [Ev.logError e]⟩ := by
  have hsid : writeSid st = st.nextId := by simp [writeSid, hs]
  simp [writeWithSession, hs, hsid, hb, hf, closeSession]

theorem writeWithSession_flushErr_some {α : Type} (db : Db) (st : RepoState)
    (body : Nat → Except Exn α × List Ev) (a : α) (evs : List Ev) (e : Exn) (s : Nat)
    (hs : st.session = some s) (hb : body s = (Except.ok a, evs))
    (hf : db OrmOp.sessionFlush = Except.error e) :
    writeWithSession db st body =
      ⟨Except.error e, ⟨none, st.nextId⟩,
        evs ++ [Ev.orm OrmOp.sessionFlush] ++ [Ev.sessionClosed s, Ev.logDebug] ++
          [Ev.logError e]⟩ := by
  have hsid : writeSid st = s := by simp [writeSid, hs]
  simp [writeWithSession, hs, hsid, hb, hf, closeSession]

/-- C2 (amended): the read repository opens a fresh session on every call
(even when one is left stored); the write repository creates a session
only when none is stored, and when one is stored it reuses it, creating
none; the DDL repository runs on per-statement connections and never
creates a session at all. -/
theorem claim_C2_amended {α : Type} (db : Db) (st : RepoState)
    (body : Nat → Except Exn α × List Ev) (s : Nat) (schemas : List String) :
    Ev.sessionCreated st.nextId ∈ (readWithSession st body).events ∧
    (st.session = none →
      Ev.sessionCreated st.nextId ∈ (writeWithSession db st body).events) ∧
    (st.session = some s → (∀ sid, (body sid).2.countP Ev.isSessionCreated = 0) →
      (writeWithSession db st body).events.countP Ev.isSessionCreated = 0) ∧
    (DDLRepository.create_schemas db schemas).2.countP Ev.isSessionCreated = 0 := by
  refine ⟨?_, ?_, ?_,
    create_schemas_countP_zero db schemas Ev.isSessionCreated rfl (fun _ => rfl)⟩
  · rcases hb : body st.nextId with ⟨r, evs⟩
    cases r with
    | ok a => rw [readWithSession_ok st body a evs hb]; simp
    | error e => rw [readWithSession_err st body e evs hb]; simp
  · intro hs
    rcases hb : body st.nextId with ⟨r, evs⟩
    cases r with
    | ok a =>
      cases hf : db OrmOp.sessionFlush with
      | ok rr => rw [writeWithSession_ok_none db st body a evs rr hs hb hf]; simp
      | error e => rw [writeWithSession_flushErr_none db st body a evs e hs hb hf]; simp
    | error e => rw [writeWithSession_err_none db st body e evs hs hb]; simp
  · intro hs hcount
    rcases hb : body s with ⟨r, evs⟩
    have hevs : evs.countP Ev.isSessionCreated = 0 := by
      have h' := hcount s
      rw [hb] at h'
      exact h'
    cases r with
    | ok a =>
      cases hf : db OrmOp.sessionFlush with
      | ok rr =>
        rw [writeWithSession_ok_some db st body a evs rr s hs hb hf]
        simp [List.countP_append, hevs, List.countP_cons, Ev.isSessionCreated]
      | error e =>
        rw [writeWithSession_flushErr_some db st body a evs e s hs hb hf]
        simp [List.countP_append, hevs, List.countP_cons, Ev.isSessionCreated]
    | error e =>
      rw [writeWithSession_err_some db st body e evs s hs hb]
      simp [List.countP_append, hevs, List.countP_cons, Ev.isSessionCreated]

/-- C2 witness: a fresh state gets a session created in both session
scopes; a state holding session `5` gets none created by the write scope;
`create_schemas` creates none. -/
theorem claim_C2_amended_witness :
    Ev.sessionCreated initState.nextId ∈
      (readWithSession initState
        (fun _ => ((Except.ok () : Except Exn Unit), ([] : List Ev)))).events ∧
    Ev.sessionCreated initState.nextId ∈
      (writeWithSession dbOk initState
        (fun _ => ((Except.ok () : Except Exn Unit), ([] : List Ev)))).events ∧
    (writeWithSession dbOk ⟨some 5, 6⟩
      (fun _ => ((Except.ok () : Except Exn Unit), ([] : List Ev)))).events.countP
        Ev.isSessionCreated = 0 ∧
    (DDLRepository.create_schemas dbOk ["a"]).2.countP Ev.isSessionCreated = 0 := by
  obtain ⟨h1, h2, -, h4⟩ := claim_C2_amended (α := Unit) dbOk initState
    (fun _ => ((Except.ok () : Except Exn Unit), ([] : List Ev))) 0 ["a"]
  obtain ⟨-, -, h3, -⟩ := claim_C2_amended (α := Unit) dbOk ⟨some 5, 6⟩
    (fun _ => ((Except.ok () : Except Exn Unit), ([] : List Ev))) 5 ["a"]
  exact ⟨h1, h2 rfl, h3 rfl (fun _ => rfl), h4⟩

/-- C3 (amended): read-repository operations always end with the session
closed and no session stored, on normal and exceptional return alike;
write-repository operations close and clear the stored session only when
an exception is raised — on normal return the session used stays stored
and open — and the explicit `commit` always ends with no session
stored. -/
theorem claim_C3_amended {α : Type} (db : Db) (st : RepoState)
    (body : Nat → Except Exn α × List Ev) (e : Exn) (evs : List Ev) (a : α) (r : DbResult) :
    (readWithSession st body).state.session = none ∧
    (body (writeSid st) = (Except.error e, evs) →
      (writeWithSession db st body).state.session = none) ∧
    (body (writeSid st) = (Except.ok a, evs) → db OrmOp.sessionFlush = Except.ok r →
      (writeWithSession db st body).state.session = some (writeSid st)) ∧
    (WriteRepository.commit db st).state.session = none := by
  refine ⟨?_, ?_, ?_, ?_⟩
  · rcases hb : body st.nextId with ⟨rr, evs'⟩
    cases rr with
    | ok a' => rw [readWithSession_ok st body a' evs' hb]
    | error e' => rw [readWithSession_err st body e' evs' hb]
  · intro hb
    cases hs : st.session with
    | none =>
      have hsid : writeSid st = st.nextId := by simp [writeSid, hs]
      rw [hsid] at hb
      rw [writeWithSession_err_none db st body e evs hs hb]
    | some s =>
      have hsid : writeSid st = s := by simp [writeSid, hs]
      rw [hsid] at hb
      rw [writeWithSession_err_some db st body e evs s hs hb]
  · intro hb hf
    cases hs : st.session with
    | none =>
      have hsid : writeSid st = st.nextId := by simp [writeSid, hs]
      rw [hsid] at hb ⊢
      rw [writeWithSession_ok_none db st body a evs r hs hb hf]
    | some s =>
      have hsid : writeSid st = s := by simp [writeSid, hs]
      rw [hsid] at hb ⊢
      rw [writeWithSession_ok_some db st body a evs r s hs hb hf]
      exact hs
  · cases hs : st.session <;> cases hc : db OrmOp.sessionCommit <;>
      cases hf : db OrmOp.sessionFlush <;>
      simp [WriteRepository.commit, writeWithSession, execOrm, closeSession, writeSid,
        hs, hc, hf]

/-- C3 witness: a normally returning read operation ends with no stored
session; a raising write body ends with no stored session; a normally
returning write body leaves the session stored; `commit` ends with no
stored session. -/
theorem claim_C3_amended_witness :
    (readWithSession initState
      (fun _ => ((Except.ok () : Except Exn Unit), ([] : List Ev)))).state.session = none ∧
    (writeWithSession dbOk initState
      (fun _ => ((Except.error (Exn.dbError 1) : Except Exn Unit),
        ([] : List Ev)))).state.session = none ∧
    (writeWithSession dbOk initState
      (fun _ => ((Except.ok () : Except Exn Unit), ([] : List Ev)))).state.session =
      some (writeSid initState) ∧
    (WriteRepository.commit dbOk initState).state.session = none := by
  obtain ⟨h1, -, -, h4⟩ := claim_C3_amended (α := Unit) dbOk initState
    (fun _ => ((Except.ok () : Except Exn Unit), ([] : List Ev)))
    (Exn.dbError 1) [] () emptyResult
  obtain ⟨-, h2, -, -⟩ := claim_C3_amended (α := Unit) dbOk initState
    (fun _ => ((Except.error (Exn.dbError 1) : Except Exn Unit), ([] : List Ev)))
    (Exn.dbError 1) [] () emptyResult
  obtain ⟨-, -, h3, -⟩ := claim_C3_amended (α := Unit) dbOk initState
    (fun _ => ((Except.ok () : Except Exn Unit), ([] : List Ev)))
    (Exn.dbError 1) [] () emptyResult
  exact ⟨h1, h2 rfl, h3 rfl rfl, h4⟩

theorem countP_mutations (objs : List PyVal) (properties : List (String × PyVal)) :
    (objs.flatMap fun _ => properties.map fun kv => Ev.rowMutated kv.1 kv.2).countP
      Ev.isRowMutated = objs.length * properties.length := by
  induction objs with
  | nil => simp
  | cons o rest ih =>
    rw [List.flatMap_cons, List.countP_append, ih]
    have hmap : (properties.map fun kv => Ev.rowMutated kv.1 kv.2).countP
        Ev.isRowMutated = properties.length := by
      induction properties with
      | nil => rfl
      | cons p ps ihp => simp [List.countP_cons, Ev.isRowMutated, ihp]
    rw [hmap, List.length_cons]
    ring

theorem countP_mutations_zero (objs : List PyVal) (properties : List (String × PyVal))
    (p : Ev → Bool) (hp : ∀ k v, p (Ev.rowMutated k v) = false) :
    (objs.flatMap fun _ => properties.map fun kv => Ev.rowMutated kv.1 kv.2).countP p = 0 := by
  rw [List.countP_eq_zero]
  intro a ha
  rw [List.mem_flatMap] at ha
  obtain ⟨o, -, ha2⟩ := ha
  rw [List.mem_map] at ha2
  obtain ⟨kv, -, rfl⟩ := ha2
  simp [hp]

/-- C4 (amended): `update` issues one ORM select and no ORM update
statement, mutating each matched row in Python with one attribute
assignment per row per property; `insert_ignore_get_id` issues exactly
one ORM insert, with no follow-up select when the insert reports an
inserted primary key and exactly one follow-up select when it does not;
`delete` issues exactly one ORM delete call. -/
theorem claim_C4_amended (db : Db) (st : RepoState) (model : String)
    (filters properties : List (String × PyVal)) (res resDel resIns res2 fr : DbResult)
    (objs : List PyVal) (entity : Entity) (v : PyVal) (t : List PyVal)
    (rows2 : List (List PyVal)) :
    (db (OrmOp.selectWhere model filters) = Except.ok res →
      destructureSingles res.rows = Except.ok objs →
      db OrmOp.sessionFlush = Except.ok fr →
      (WriteRepository.update db st model filters properties).events.countP
          Ev.isUpdateCall = 0 ∧
      (WriteRepository.update db st model filters properties).events.countP
          Ev.isSelectCall = 1 ∧
      (WriteRepository.update db st model filters properties).events.countP
          Ev.isRowMutated = objs.length * properties.length) ∧
    (db (OrmOp.insertOnConflictDoNothing entity.table (popSaState entity.dict)) =
        Except.ok resIns →
      db OrmOp.sessionFlush = Except.ok fr →
      resIns.insertedPrimaryKey.isEmpty = false →
      (WriteRepository.insert_ignore_get_id db st entity).events.countP
          Ev.isInsertCall = 1 ∧
      (WriteRepository.insert_ignore_get_id db st entity).events.countP
          Ev.isSelectCall = 0) ∧
    (db (OrmOp.insertOnConflictDoNothing entity.table (popSaState entity.dict)) =
        Except.ok resIns →
      db OrmOp.sessionFlush = Except.ok fr →
      resIns.insertedPrimaryKey.isEmpty = true →
      db (OrmOp.selectWhere entity.table
        ((popSaState entity.dict).filter fun kv => kv.2.isScalar)) = Except.ok res2 →
      res2.rows = (v :: t) :: rows2 →
      (WriteRepository.insert_ignore_get_id db st entity).events.countP
          Ev.isInsertCall = 1 ∧
      (WriteRepository.insert_ignore_get_id db st entity).events.countP
          Ev.isSelectCall = 1) ∧
    (db (OrmOp.deleteWhere model filters) = Except.ok resDel →
      db OrmOp.sessionFlush = Except.ok fr →
      (WriteRepository.delete db st model filters).events.countP
        (fun ev => match ev with
          | Ev.orm (OrmOp.deleteWhere _ _) => true
          | _ => false) = 1) := by
  refine ⟨?_, ?_, ?_, ?_⟩
  · intro h1 h2 hf
    cases hs : st.session <;>
      simp [WriteRepository.update, writeWithSession, writeSid, execOrm, rethrowClose,
        closeSession, hs, h1, h2, hf, List.countP_append, List.countP_cons,
        Ev.isUpdateCall, Ev.isSelectCall, Ev.isRowMutated,
        countP_mutations objs properties,
        countP_mutations_zero objs properties Ev.isUpdateCall (fun _ _ => rfl),
        countP_mutations_zero objs properties Ev.isSelectCall (fun _ _ => rfl)]
  · intro hi hf hpk
    cases hs : st.session <;>
      simp [WriteRepository.insert_ignore_get_id, writeWithSession, writeSid, execOrm,
        closeSession, hs, hi, hf, hpk, List.countP_append, List.countP_cons,
        Ev.isInsertCall, Ev.isSelectCall]
  · intro hi hf hpk hsel hrows
    cases hs : st.session <;>
      simp [WriteRepository.insert_ignore_get_id, writeWithSession, writeSid, execOrm,
        closeSession, hs, hi, hf, hpk, hsel, hrows, List.countP_append, List.countP_cons,
        Ev.isInsertCall, Ev.isSelectCall]
  · intro hd hf
    cases hs : st.session <;>
      simp [WriteRepository.delete, writeWithSession, writeSid, execOrm, rethrowClose,
        closeSession, hs, hd, hf, List.countP_append, List.countP_cons]

/-- C4 witness: concrete oracles exercise the four cases — update on a
one-row select, inserts with and without a reported primary key, and a
delete. -/
theorem claim_C4_amended_witness :
    (WriteRepository.update dbOneRow initState "m" [("id", PyVal.vInt 1)]
      [("x", PyVal.vInt 2)]).events.countP Ev.isUpdateCall = 0 ∧
    (WriteRepository.update dbOneRow initState "m" [("id", PyVal.vInt 1)]
      [("x", PyVal.vInt 2)]).events.countP Ev.isRowMutated = 1 ∧
    (WriteRepository.insert_ignore_get_id dbWithPk initState sampleEntity).events.countP
      Ev.isSelectCall = 0 ∧
    (WriteRepository.insert_ignore_get_id dbNoPk initState sampleEntity).events.countP
      Ev.isSelectCall = 1 ∧
    (WriteRepository.delete dbOk initState "m" [("id", PyVal.vInt 1)]).events.countP
      (fun ev => match ev with
        | Ev.orm (OrmOp.deleteWhere _ _) => true
        | _ => false) = 1 := by
  have hu := (claim_C4_amended dbOneRow initState "m" [("id", PyVal.vInt 1)]
    [("x", PyVal.vInt 2)] ⟨[[PyVal.vInt 7]], []⟩ emptyResult emptyResult emptyResult
    emptyResult [PyVal.vInt 7] sampleEntity PyVal.vNone [] []).1 rfl rfl rfl
  have hp := (claim_C4_amended dbWithPk initState "m" [] [] emptyResult emptyResult
    ⟨[], [PyVal.vInt 4]⟩ emptyResult ⟨[], [PyVal.vInt 4]⟩ [] sampleEntity
    PyVal.vNone [] []).2.1 rfl rfl rfl
  have hn := (claim_C4_amended dbNoPk initState "m" [] [] emptyResult emptyResult
    emptyResult ⟨[[PyVal.vInt 9]], []⟩ emptyResult [] sampleEntity
    (PyVal.vInt 9) [] []).2.2.1 rfl rfl rfl rfl rfl
  have hd := (claim_C4_amended dbOk initState "m" [("id", PyVal.vInt 1)] [] emptyResult
    emptyResult emptyResult emptyResult emptyResult [] sampleEntity
    PyVal.vNone [] []).2.2.2 rfl rfl
  exact ⟨hu.1, hu.2.2, hp.2, hn.2, hd⟩

theorem create_sequences_fixed_params (db : Db) (seqs : List (List Char))
    (schema name : List Char) (so inc : Option Int)
    (h : Ev.orm (OrmOp.createSequence schema name so inc) ∈
      (DDLRepository.create_sequences db seqs).2) :
    so = some 1 ∧ inc = some 1 := by
  induction seqs with
  | nil => simp [DDLRepository.create_sequences] at h
  | cons q rest ih =>
    simp only [DDLRepository.create_sequences] at h
    rcases hg : (pySplitDot q).get? 1 with - | nm
    · rw [hg] at h
      simp at h
    · rw [hg] at h
      rcases hd : db (OrmOp.createSequence (pySplitDot q).headI nm (some 1) (some 1))
        with e | r
      · simp [hd] at h
        obtain ⟨-, -, h3, h4⟩ := h
        exact ⟨h3, h4⟩
      · simp [hd] at h
        rcases h with ⟨-, -, h3, h4⟩ | h
        · exact ⟨h3, h4⟩
        · exact ih h

/-- C5 (amended): the facade does add parameters of its own on top of the
wrapped ORM: every `CreateSequence` call `create_sequences` issues carries
the facade-fixed `start=1` and `increment=1`, and `upsert` called without
an `index_elements` argument issues the conflict-update with the facade's
default conflict-index column list `["id"]`. -/
theorem claim_C5_amended (db : Db) (seqs : List (List Char)) (st : RepoState)
    (entity : Entity) (s : Nat) (schema name : List Char) (so inc : Option Int)
    (r1 r2 : DbResult) :
    (Ev.orm (OrmOp.createSequence schema name so inc) ∈
        (DDLRepository.create_sequences db seqs).2 →
      so = some 1 ∧ inc = some 1) ∧
    (st.session = some s →
      db (OrmOp.insertOnConflictDoUpdate entity.table (popSaState entity.dict) ["id"]) =
        Except.ok r1 →
      db OrmOp.sessionFlush = Except.ok r2 →
      (WriteRepository.upsertDefault db st entity).events =
        [Ev.orm (OrmOp.insertOnConflictDoUpdate entity.table (popSaState entity.dict) ["id"]),
         Ev.orm OrmOp.sessionFlush, Ev.orm OrmOp.sessionFlush]) := by
  constructor
  · exact create_sequences_fixed_params db seqs schema name so inc
  · intro hs h1 h2
    simp [WriteRepository.upsertDefault, WriteRepository.upsert, writeWithSession,
      writeSid, execOrm, hs, h1, h2]

/-- C5 witness: the concrete call on `"s.q"` carries `start=1` and
`increment=1`, and a default-argument upsert on a stored session emits
exactly the conflict-update on `["id"]` plus the two flushes. -/
theorem claim_C5_amended_witness :
    ((some 1 : Option Int) = some 1 ∧ (some 1 : Option Int) = some 1) ∧
    (WriteRepository.upsertDefault dbOk ⟨some 0, 1⟩ sampleEntity).events =
      [Ev.orm (OrmOp.insertOnConflictDoUpdate sampleEntity.table
        (popSaState sampleEntity.dict) ["id"]),
       Ev.orm OrmOp.sessionFlush, Ev.orm OrmOp.sessionFlush] := by
  obtain ⟨h1, h2⟩ := claim_C5_amended dbOk [['s', '.', 'q']] ⟨some 0, 1⟩ sampleEntity 0
    ['s'] ['q'] (some 1) (some 1) emptyResult emptyResult
  exact ⟨h1 (by decide), h2 rfl rfl rfl⟩
